import Mathlib

/-!
Shallow embedding of the projection engine of the investment-projection
repository (the calculations module, src/utils/calculations.ts) together
with the duplicated mortgage helpers of src/components/ComparisonTable.tsx.

JS numbers are modelled as real numbers with exact arithmetic; quantities
that are integers at every call site (term years, elapsed years, loop
counters) are modelled as naturals.  A separate Option-valued variant of
the payoff-time function models IEEE non-finite propagation (none stands
for a non-finite JS number, NaN or an infinity) in the region where the
argument of the logarithm is not positive; the real-valued variant is the
idealisation used by the simulation, whose reachable region keeps that
argument positive.
-/

/-- Input record fed to the engine (src/components/InputForm.tsx). -/
structure InvestmentInputs where
  initialNetWorth : ℝ
  yearlyInvestment : ℝ
  weeklyRent : ℝ
  stockAnnualReturn : ℝ
  houseCost : ℝ
  mortgageRate : ℝ
  houseGrowthRate : ℝ
  ownersCorp : ℝ

/-- Output snapshot of one simulated year (src/utils/calculations.ts). -/
structure YearlyProjection where
  year : ℕ
  stockValue : ℝ
  stockCumulativeInvestment : ℝ
  rentPaid : ℝ
  stockNetWorth : ℝ
  propertyValue : ℝ
  mortgageBalance : ℝ
  propertyNetWorth : ℝ
  propertyEquity : ℝ
  totalInterestPaid : ℝ
  ownersCostsPaid : ℝ
  stockTotalCost : ℝ
  propertyTotalCost : ℝ

/-- Validity predicate for the eight input fields: all are non-negative
monetary amounts or percentage rates. -/
def ValidInputs (inputs : InvestmentInputs) : Prop :=
  0 ≤ inputs.initialNetWorth ∧ 0 ≤ inputs.yearlyInvestment ∧
  0 ≤ inputs.weeklyRent ∧ 0 ≤ inputs.stockAnnualReturn ∧
  0 ≤ inputs.houseCost ∧ 0 ≤ inputs.mortgageRate ∧
  0 ≤ inputs.houseGrowthRate ∧ 0 ≤ inputs.ownersCorp

namespace Calculations

/-- Monthly mortgage payment (calculations module).  The term in years is a
natural number: the only call sites pass the literal 30. -/
noncomputable def calculateMortgagePayment (principal annualRate : ℝ)
    (termYears : ℕ) : ℝ :=
  let monthlyRate := annualRate / 100 / 12
  let numPayments := termYears * 12
  if monthlyRate = 0 then principal / (numPayments : ℝ)
  else principal * (monthlyRate * (1 + monthlyRate) ^ numPayments) /
    ((1 + monthlyRate) ^ numPayments - 1)

/-- Payoff time in years with extra payments (calculations module),
idealised real semantics of the float formula. -/
noncomputable def calculatePayoffTime
    (principal annualRate monthlyPayment extraAnnualPayment : ℝ) : ℝ :=
  if extraAnnualPayment ≤ 0 then 30
  else
    let monthlyRate := annualRate / 100 / 12
    let totalMonthlyPayment := monthlyPayment + extraAnnualPayment / 12
    if monthlyRate = 0 then principal / (totalMonthlyPayment * 12)
    else
      let months :=
        -Real.log (1 - principal * monthlyRate / totalMonthlyPayment) /
          Real.log (1 + monthlyRate)
      max 0.1 (months / 12)

/-- Remaining mortgage balance after a whole number of years
(calculations module).  Every call site passes an integer year count. -/
noncomputable def calculateMortgageBalance
    (principal annualRate monthlyPayment extraAnnualPayment : ℝ)
    (yearsPaid : ℕ) : ℝ :=
  let monthlyRate := annualRate / 100 / 12
  let totalMonthlyPayment := monthlyPayment + extraAnnualPayment / 12
  let monthsPaid := yearsPaid * 12
  if monthlyRate = 0 then
    max 0 (principal - totalMonthlyPayment * (monthsPaid : ℝ))
  else
    max 0 (principal * (1 + monthlyRate) ^ monthsPaid -
      totalMonthlyPayment * (((1 + monthlyRate) ^ monthsPaid - 1) / monthlyRate))

/-- Month-by-month helper of the cumulative-interest computation: fuel is
the number of months still to simulate, followed by the running balance and
the interest accumulated so far. -/
noncomputable def interestLoop (monthlyRate totalMonthlyPayment : ℝ) :
    ℕ → ℝ → ℝ → ℝ
  | 0, _, totalInterest => totalInterest
  | months + 1, balance, totalInterest =>
    if 0 < balance then
      let interestPayment := balance * monthlyRate
      let principalPayment := min balance (totalMonthlyPayment - interestPayment)
      interestLoop monthlyRate totalMonthlyPayment months
        (balance - principalPayment) (totalInterest + interestPayment)
    else totalInterest

/-- Total interest paid over a whole number of years (calculations module). -/
noncomputable def calculateInterestPaid
    (principal annualRate monthlyPayment extraAnnualPayment : ℝ)
    (yearsPaid : ℕ) : ℝ :=
  interestLoop (annualRate / 100 / 12) (monthlyPayment + extraAnnualPayment / 12)
    (yearsPaid * 12) principal 0

/-- The loan amount computed at the top of calculateProjections. -/
noncomputable def loanAmount (inputs : InvestmentInputs) : ℝ :=
  inputs.houseCost - inputs.initialNetWorth

/-- The monthly mortgage payment computed at the top of calculateProjections. -/
noncomputable def monthlyMortgage (inputs : InvestmentInputs) : ℝ :=
  if 0 < loanAmount inputs then
    calculateMortgagePayment (loanAmount inputs) inputs.mortgageRate 30
  else 0

/-- Annual mortgage plus ownership cost computed in calculateProjections. -/
noncomputable def annualMortgageCosts (inputs : InvestmentInputs) : ℝ :=
  monthlyMortgage inputs * 12 + inputs.ownersCorp

/-- Extra annual payment computed in calculateProjections, floored at 0. -/
noncomputable def extraAnnualPayment (inputs : InvestmentInputs) : ℝ :=
  max 0 (inputs.yearlyInvestment - annualMortgageCosts inputs)

/-- Projected payoff time computed in calculateProjections. -/
noncomputable def payoffTime (inputs : InvestmentInputs) : ℝ :=
  if 0 < loanAmount inputs then
    calculatePayoffTime (loanAmount inputs) inputs.mortgageRate
      (monthlyMortgage inputs) (extraAnnualPayment inputs)
  else 0

/-- Iteration bound of the simulation loop in calculateProjections. -/
noncomputable def maxYears (inputs : InvestmentInputs) : ℕ :=
  (max 5 (⌈payoffTime inputs⌉ + 2)).toNat

/-- Body of the yearly simulation loop of calculateProjections.  The first
natural argument is the remaining fuel (initially the loop bound), the
second the current year, followed by the running stock value, cumulative
rent and cumulative ownership costs.  The early-exit of the source loop is
the singleton branch: the snapshot of the year in which the balance has
reached 0 after the projected payoff is still pushed, then iteration stops. -/
noncomputable def projLoop (inputs : InvestmentInputs) :
    ℕ → ℕ → ℝ → ℝ → ℝ → List YearlyProjection
  | 0, _, _, _, _ => []
  | fuel + 1, year, stockValue, cumulativeRent, cumulativeOwnersCosts =>
    let annualRent := inputs.weeklyRent * 52
    let rentThisYear := annualRent
    let cumulativeRent' := cumulativeRent + rentThisYear
    let netStockInvestment := inputs.yearlyInvestment - rentThisYear
    let stockValue' :=
      stockValue * (1 + inputs.stockAnnualReturn / 100) + netStockInvestment
    let mortgageBalance := calculateMortgageBalance (loanAmount inputs)
      inputs.mortgageRate (monthlyMortgage inputs) (extraAnnualPayment inputs) year
    let interestPaid := calculateInterestPaid (loanAmount inputs)
      inputs.mortgageRate (monthlyMortgage inputs) (extraAnnualPayment inputs) year
    let cumulativeOwnersCosts' := cumulativeOwnersCosts + inputs.ownersCorp
    let propertyValue := inputs.houseCost * (1 + inputs.houseGrowthRate / 100) ^ year
    let snapshot : YearlyProjection :=
      { year := year
        stockValue := stockValue'
        stockCumulativeInvestment :=
          inputs.initialNetWorth + netStockInvestment * (year : ℝ)
        rentPaid := cumulativeRent'
        stockNetWorth := stockValue'
        propertyValue := propertyValue
        mortgageBalance := mortgageBalance
        propertyNetWorth := propertyValue - mortgageBalance
        propertyEquity := propertyValue - mortgageBalance
        totalInterestPaid := interestPaid
        ownersCostsPaid := cumulativeOwnersCosts'
        stockTotalCost := cumulativeRent' +
          inputs.initialNetWorth * inputs.stockAnnualReturn / 100 * (year : ℝ)
        propertyTotalCost := interestPaid + cumulativeOwnersCosts' }
    if mortgageBalance ≤ 0 ∧ (year : ℝ) > payoffTime inputs then [snapshot]
    else snapshot ::
      projLoop inputs fuel (year + 1) stockValue' cumulativeRent' cumulativeOwnersCosts'

/-- The projection engine (calculations module): one snapshot per simulated
year, starting at year 1. -/
noncomputable def calculateProjections (inputs : InvestmentInputs) :
    List YearlyProjection :=
  projLoop inputs (maxYears inputs) 1 inputs.initialNetWorth 0 0

/-- One year of the stock-path update of the simulation loop: growth on the
prior balance, then the net contribution of the year (proof-layer name for
the update expression of the loop body). -/
noncomputable def stockStep (inputs : InvestmentInputs) (x : ℝ) : ℝ :=
  x * (1 + inputs.stockAnnualReturn / 100) +
    (inputs.yearlyInvestment - inputs.weeklyRent * 52)

/-- The snapshot the loop body builds for a given year from the incoming
running state (proof-layer name for the record built inside projLoop). -/
noncomputable def snapshotAt (inputs : InvestmentInputs) (year : ℕ)
    (stockValue cumulativeRent cumulativeOwnersCosts : ℝ) : YearlyProjection :=
  let annualRent := inputs.weeklyRent * 52
  let rentThisYear := annualRent
  let cumulativeRent' := cumulativeRent + rentThisYear
  let netStockInvestment := inputs.yearlyInvestment - rentThisYear
  let stockValue' :=
    stockValue * (1 + inputs.stockAnnualReturn / 100) + netStockInvestment
  let mortgageBalance := calculateMortgageBalance (loanAmount inputs)
    inputs.mortgageRate (monthlyMortgage inputs) (extraAnnualPayment inputs) year
  let interestPaid := calculateInterestPaid (loanAmount inputs)
    inputs.mortgageRate (monthlyMortgage inputs) (extraAnnualPayment inputs) year
  let cumulativeOwnersCosts' := cumulativeOwnersCosts + inputs.ownersCorp
  let propertyValue := inputs.houseCost * (1 + inputs.houseGrowthRate / 100) ^ year
  { year := year
    stockValue := stockValue'
    stockCumulativeInvestment :=
      inputs.initialNetWorth + netStockInvestment * (year : ℝ)
    rentPaid := cumulativeRent'
    stockNetWorth := stockValue'
    propertyValue := propertyValue
    mortgageBalance := mortgageBalance
    propertyNetWorth := propertyValue - mortgageBalance
    propertyEquity := propertyValue - mortgageBalance
    totalInterestPaid := interestPaid
    ownersCostsPaid := cumulativeOwnersCosts'
    stockTotalCost := cumulativeRent' +
      inputs.initialNetWorth * inputs.stockAnnualReturn / 100 * (year : ℝ)
    propertyTotalCost := interestPaid + cumulativeOwnersCosts' }

/-- Logarithm with the non-finite outcomes of the float function made
explicit: none stands for a non-finite JS number (NaN for a negative
argument, negative infinity at 0). -/
noncomputable def jsLog (x : ℝ) : Option ℝ :=
  if 0 < x then some (Real.log x) else none

/-- Float-aware variant of the payoff-time function: none propagates the
non-finite value that the source produces when the logarithm argument is
not positive (NaN reaches the result through division and the float
maximum, which both propagate it). -/
noncomputable def calculatePayoffTimeJS
    (principal annualRate monthlyPayment extraAnnualPayment : ℝ) : Option ℝ :=
  if extraAnnualPayment ≤ 0 then some 30
  else
    let monthlyRate := annualRate / 100 / 12
    let totalMonthlyPayment := monthlyPayment + extraAnnualPayment / 12
    if monthlyRate = 0 then some (principal / (totalMonthlyPayment * 12))
    else
      (jsLog (1 - principal * monthlyRate / totalMonthlyPayment)).bind fun a =>
        (jsLog (1 + monthlyRate)).map fun b => max 0.1 (-a / b / 12)

end Calculations

namespace ComparisonTable

/-- Duplicate of the monthly-payment helper embedded in the presentation
component (src/components/ComparisonTable.tsx). -/
noncomputable def calculateMortgagePayment (principal annualRate : ℝ)
    (termYears : ℕ) : ℝ :=
  let monthlyRate := annualRate / 100 / 12
  let numPayments := termYears * 12
  if monthlyRate = 0 then principal / (numPayments : ℝ)
  else principal * (monthlyRate * (1 + monthlyRate) ^ numPayments) /
    ((1 + monthlyRate) ^ numPayments - 1)

/-- Duplicate of the mortgage-balance helper embedded in the presentation
component: unlike the version in the engine it forces the balance to 0 once 30
years have elapsed. -/
noncomputable def calculateMortgageBalance
    (principal annualRate monthlyPayment extraAnnualPayment : ℝ)
    (yearsPaid : ℕ) : ℝ :=
  if 30 ≤ yearsPaid then 0
  else
    let monthlyRate := annualRate / 100 / 12
    let totalMonthlyPayment := monthlyPayment + extraAnnualPayment / 12
    let monthsPaid := yearsPaid * 12
    if monthlyRate = 0 then
      max 0 (principal - totalMonthlyPayment * (monthsPaid : ℝ))
    else
      max 0 (principal * (1 + monthlyRate) ^ monthsPaid -
        totalMonthlyPayment * (((1 + monthlyRate) ^ monthsPaid - 1) / monthlyRate))

end ComparisonTable

/-- Scenario A of the testable properties of the spec. -/
noncomputable def scenarioA : InvestmentInputs :=
  { initialNetWorth := 100000, yearlyInvestment := 35000, weeklyRent := 500,
    stockAnnualReturn := 9.8, houseCost := 500000, mortgageRate := 5.5,
    houseGrowthRate := 3.5, ownersCorp := 5000 }

/-- Scenario C of the spec, where the deposit covers the whole house price. -/
noncomputable def scenarioC : InvestmentInputs :=
  { initialNetWorth := 500000, yearlyInvestment := 0, weeklyRent := 0,
    stockAnnualReturn := 0, houseCost := 500000, mortgageRate := 0,
    houseGrowthRate := 0, ownersCorp := 0 }

/-- An input whose mortgage rate is below -100%, so invalid per the error taxonomy of the spec. -/
noncomputable def invalidRateInputs : InvestmentInputs :=
  { initialNetWorth := 0, yearlyInvestment := 0, weeklyRent := 0,
    stockAnnualReturn := 0, houseCost := 360, mortgageRate := -200,
    houseGrowthRate := 0, ownersCorp := 0 }

/-- An unaffordable input without a loan: the annual ownership cost exceeds
the yearly budget while the deposit covers the whole house price. -/
noncomputable def unaffordableNoLoan : InvestmentInputs :=
  { initialNetWorth := 0, yearlyInvestment := 0, weeklyRent := 0,
    stockAnnualReturn := 0, houseCost := 0, mortgageRate := 0,
    houseGrowthRate := 0, ownersCorp := 5000 }

/-- A small zero-rate loan used as a concrete witness input. -/
noncomputable def loan360 : InvestmentInputs :=
  { initialNetWorth := 0, yearlyInvestment := 0, weeklyRent := 0,
    stockAnnualReturn := 0, houseCost := 360, mortgageRate := 0,
    houseGrowthRate := 0, ownersCorp := 0 }

namespace Calculations

/-- Unfolding equation of one loop iteration. -/
lemma projLoop_succ (inputs : InvestmentInputs) (fuel year : ℕ) (s cr co : ℝ) :
    projLoop inputs (fuel + 1) year s cr co =
      if calculateMortgageBalance (loanAmount inputs) inputs.mortgageRate
            (monthlyMortgage inputs) (extraAnnualPayment inputs) year ≤ 0 ∧
          (year : ℝ) > payoffTime inputs then
        [snapshotAt inputs year s cr co]
      else snapshotAt inputs year s cr co ::
        projLoop inputs fuel (year + 1) (stockStep inputs s)
          (cr + inputs.weeklyRent * 52) (co + inputs.ownersCorp) :=
  rfl

/-- Field values of the snapshots that the loop emits, indexed by position. -/
lemma projLoop_get?_spec (inputs : InvestmentInputs) :
    ∀ (fuel year : ℕ) (s cr co : ℝ) (i : ℕ) (pr : YearlyProjection),
      (projLoop inputs fuel year s cr co).get? i = some pr →
      pr.year = year + i ∧
      pr.mortgageBalance = calculateMortgageBalance (loanAmount inputs)
        inputs.mortgageRate (monthlyMortgage inputs) (extraAnnualPayment inputs)
        (year + i) ∧
      pr.propertyValue =
        inputs.houseCost * (1 + inputs.houseGrowthRate / 100) ^ (year + i) ∧
      pr.stockValue = (stockStep inputs)^[i + 1] s := by
  intro fuel
  induction fuel with
  | zero => intro year s cr co i pr h; simp [projLoop] at h
  | succ fuel ih =>
    intro year s cr co i pr h
    rw [projLoop_succ] at h
    by_cases hc : calculateMortgageBalance (loanAmount inputs) inputs.mortgageRate
        (monthlyMortgage inputs) (extraAnnualPayment inputs) year ≤ 0 ∧
        (year : ℝ) > payoffTime inputs
    · rw [if_pos hc] at h
      cases i with
      | zero =>
        simp only [List.get?_cons_zero, Option.some_inj] at h
        subst h
        refine ⟨rfl, rfl, rfl, ?_⟩
        simp [snapshotAt, stockStep, Function.iterate_one]
      | succ i => simp at h
    · rw [if_neg hc] at h
      cases i with
      | zero =>
        simp only [List.get?_cons_zero, Option.some_inj] at h
        subst h
        refine ⟨rfl, rfl, rfl, ?_⟩
        simp [snapshotAt, stockStep, Function.iterate_one]
      | succ i =>
        simp only [List.get?_cons_succ] at h
        obtain ⟨h1, h2, h3, h4⟩ := ih (year + 1) (stockStep inputs s)
          (cr + inputs.weeklyRent * 52) (co + inputs.ownersCorp) i pr h
        refine ⟨by omega, ?_, ?_, ?_⟩
        · rw [h2]; congr 1; omega
        · rw [h3]; congr 2; omega
        · rw [h4, ← Function.iterate_succ_apply]

/-- Lower bound on the number of emitted snapshots: as long as the break
condition fails for the first m years, at least m + 1 snapshots appear. -/
lemma projLoop_length_ge (inputs : InvestmentInputs) :
    ∀ (m fuel year : ℕ) (s cr co : ℝ),
      m + 1 ≤ fuel →
      (∀ j, j < m →
        ¬(calculateMortgageBalance (loanAmount inputs) inputs.mortgageRate
            (monthlyMortgage inputs) (extraAnnualPayment inputs) (year + j) ≤ 0 ∧
          ((year + j : ℕ) : ℝ) > payoffTime inputs)) →
      m + 1 ≤ (projLoop inputs fuel year s cr co).length := by
  intro m
  induction m with
  | zero =>
    intro fuel year s cr co hf _
    obtain ⟨f, rfl⟩ : ∃ f, fuel = f + 1 := ⟨fuel - 1, by omega⟩
    rw [projLoop_succ]
    by_cases hc : calculateMortgageBalance (loanAmount inputs) inputs.mortgageRate
        (monthlyMortgage inputs) (extraAnnualPayment inputs) year ≤ 0 ∧
        (year : ℝ) > payoffTime inputs
    · rw [if_pos hc]; simp
    · rw [if_neg hc]; simp
  | succ m ih =>
    intro fuel year s cr co hf hnb
    obtain ⟨f, rfl⟩ : ∃ f, fuel = f + 1 := ⟨fuel - 1, by omega⟩
    rw [projLoop_succ]
    have h0 : ¬(calculateMortgageBalance (loanAmount inputs) inputs.mortgageRate
        (monthlyMortgage inputs) (extraAnnualPayment inputs) year ≤ 0 ∧
        (year : ℝ) > payoffTime inputs) := by
      have := hnb 0 (by omega)
      simpa using this
    rw [if_neg h0]
    have hrest := ih f (year + 1) (stockStep inputs s)
      (cr + inputs.weeklyRent * 52) (co + inputs.ownersCorp) (by omega)
      (by
        intro j hj
        have := hnb (j + 1) (by omega)
        have heq : year + (j + 1) = year + 1 + j := by omega
        rwa [heq] at this)
    simp only [List.length_cons]
    omega

/-- The engine always emits at least one snapshot. -/
lemma calculateProjections_length_pos (inputs : InvestmentInputs) :
    1 ≤ (calculateProjections inputs).length := by
  have h5 : (5 : ℤ) ≤ max 5 (⌈payoffTime inputs⌉ + 2) := le_max_left _ _
  have hfuel : 1 ≤ maxYears inputs := by unfold maxYears; omega
  exact projLoop_length_ge inputs 0 (maxYears inputs) 1 inputs.initialNetWorth 0 0
    hfuel (by omega)

/-- The remaining-balance function never returns a negative value. -/
lemma calculateMortgageBalance_nonneg (p a mp ex : ℝ) (y : ℕ) :
    0 ≤ calculateMortgageBalance p a mp ex y := by
  unfold calculateMortgageBalance
  dsimp only
  split <;> exact le_max_left 0 _

/-- Zero-rate branch of the payment function. -/
lemma calculateMortgagePayment_zero_rate (p a : ℝ) (h : a / 100 / 12 = 0)
    (t : ℕ) : calculateMortgagePayment p a t = p / ((t : ℝ) * 12) := by
  simp only [calculateMortgagePayment]
  rw [if_pos h]
  push_cast
  ring_nf

/-- Positive-rate branch of the payment function at the 30-year term. -/
lemma calculateMortgagePayment_pos_rate (p a : ℝ) (h : a / 100 / 12 ≠ 0) :
    calculateMortgagePayment p a 30 =
      p * ((a / 100 / 12) * (1 + a / 100 / 12) ^ (360 : ℕ)) /
        ((1 + a / 100 / 12) ^ (360 : ℕ) - 1) := by
  simp only [calculateMortgagePayment]
  rw [if_neg h]

/-- The fixed-payment annuity amount strictly exceeds the interest-only
monthly cost (stated with the compounding factor abstracted). -/
lemma annuity_gt (p r Q : ℝ) (hp : 0 < p) (hr : 0 < r) (hq : 1 < Q) :
    p * r < p * (r * Q) / (Q - 1) := by
  rw [lt_div_iff₀ (by linarith)]
  nlinarith [mul_pos hp hr]

/-- The fixed-payment annuity amount is positive (compounding factor
abstracted). -/
lemma annuity_pos (p r Q : ℝ) (hp : 0 < p) (hr : 0 < r) (hq : 1 < Q) :
    0 < p * (r * Q) / (Q - 1) :=
  div_pos (mul_pos hp (mul_pos hr (by linarith))) (by linarith)

/-- Separating the closed-form balance into a geometric part and a constant. -/
lemma balance_formula_rewrite (p M r Q : ℝ) (hr : r ≠ 0) :
    p * Q - M * ((Q - 1) / r) = (p - M / r) * Q + M / r := by
  field_simp
  ring

/-- The remaining balance is non-increasing in elapsed years whenever the
total monthly payment is non-negative and covers the monthly interest. -/
lemma calculateMortgageBalance_antitone (p a mp ex : ℝ) (ha : 0 ≤ a)
    (hM0 : 0 ≤ mp + ex / 12) (hM : p * (a / 100 / 12) ≤ mp + ex / 12)
    {y z : ℕ} (hyz : y ≤ z) :
    calculateMortgageBalance p a mp ex z ≤ calculateMortgageBalance p a mp ex y := by
  have hr0 : 0 ≤ a / 100 / 12 := by positivity
  simp only [calculateMortgageBalance]
  rcases eq_or_lt_of_le hr0 with h | h
  · rw [if_pos h.symm, if_pos h.symm]
    apply max_le_max le_rfl
    have hc : ((y * 12 : ℕ) : ℝ) ≤ ((z * 12 : ℕ) : ℝ) := by
      exact_mod_cast Nat.mul_le_mul_right 12 hyz
    have := mul_le_mul_of_nonneg_left hc hM0
    linarith
  · rw [if_neg h.ne', if_neg h.ne']
    apply max_le_max le_rfl
    rw [balance_formula_rewrite p (mp + ex / 12) _ _ h.ne',
      balance_formula_rewrite p (mp + ex / 12) _ _ h.ne']
    have hbase : (1:ℝ) ≤ 1 + a / 100 / 12 := by linarith
    have hQ : (1 + a / 100 / 12) ^ (y * 12) ≤ (1 + a / 100 / 12) ^ (z * 12) :=
      pow_le_pow_right₀ hbase (by omega)
    have hco : p - (mp + ex / 12) / (a / 100 / 12) ≤ 0 := by
      rw [sub_nonpos, le_div_iff₀ h]
      linarith
    have := mul_le_mul_of_nonpos_left hQ hco
    linarith

/-- The balance is 0 as soon as linear repayment has consumed the principal
(zero-rate branch). -/
lemma balance_zero_zero_rate (p a mp ex : ℝ) (h : a / 100 / 12 = 0) (y : ℕ)
    (hle : p ≤ (mp + ex / 12) * ((y * 12 : ℕ) : ℝ)) :
    calculateMortgageBalance p a mp ex y = 0 := by
  simp only [calculateMortgageBalance]
  rw [if_pos h]
  exact max_eq_left (by linarith)

/-- The balance is 0 as soon as the compounded payments dominate the
compounded principal (positive-rate branch). -/
lemma balance_zero_pos_rate (p a mp ex : ℝ) (h : a / 100 / 12 ≠ 0) (y : ℕ)
    (hle : p * (1 + a / 100 / 12) ^ (y * 12) ≤
      (mp + ex / 12) * (((1 + a / 100 / 12) ^ (y * 12) - 1) / (a / 100 / 12))) :
    calculateMortgageBalance p a mp ex y = 0 := by
  simp only [calculateMortgageBalance]
  rw [if_neg h]
  exact max_eq_left (by linarith)

/-- The balance of a non-positive principal is 0 whenever the rate and the
payment are non-negative. -/
lemma balance_zero_of_nonpos (p a mp ex : ℝ) (hp : p ≤ 0) (ha : 0 ≤ a)
    (hM0 : 0 ≤ mp + ex / 12) (y : ℕ) :
    calculateMortgageBalance p a mp ex y = 0 := by
  have hr0 : 0 ≤ a / 100 / 12 := by positivity
  rcases eq_or_lt_of_le hr0 with h | h
  · apply balance_zero_zero_rate p a mp ex h.symm
    have : (0:ℝ) ≤ (mp + ex / 12) * ((y * 12 : ℕ) : ℝ) := by positivity
    linarith
  · apply balance_zero_pos_rate p a mp ex h.ne'
    have hQ1 : (1:ℝ) ≤ (1 + a / 100 / 12) ^ (y * 12) :=
      one_le_pow₀ (by linarith)
    have hQpos : (0:ℝ) < (1 + a / 100 / 12) ^ (y * 12) := by linarith
    have h1 : p * (1 + a / 100 / 12) ^ (y * 12) ≤ 0 := by nlinarith
    have h2 : (0:ℝ) ≤ (mp + ex / 12) *
        (((1 + a / 100 / 12) ^ (y * 12) - 1) / (a / 100 / 12)) := by
      apply mul_nonneg hM0
      apply div_nonneg (by linarith) (le_of_lt h)
    linarith

/-- Full-term identity of the annuity payment: compounded payments consume
exactly the compounded principal (compounding factor abstracted). -/
lemma annuity_identity (p r Q : ℝ) (hr : r ≠ 0) (hq : Q - 1 ≠ 0) :
    p * (r * Q) / (Q - 1) * ((Q - 1) / r) = p * Q := by
  field_simp
  ring

/-- After at least as many months as the logarithmic payoff estimate, the
closed-form balance has dropped to 0. -/
lemma balance_zero_of_months (p a mp ex : ℝ) (hr : 0 < a / 100 / 12) (hp : 0 < p)
    (hprM : p * (a / 100 / 12) < mp + ex / 12) (y : ℕ)
    (hy : -Real.log (1 - p * (a / 100 / 12) / (mp + ex / 12)) /
        Real.log (1 + a / 100 / 12) ≤ (y : ℝ) * 12) :
    calculateMortgageBalance p a mp ex y = 0 := by
  set r := a / 100 / 12 with hrdef
  set M := mp + ex / 12 with hMdef
  have hM : 0 < M := lt_trans (mul_pos hp hr) hprM
  have hMpr : 0 < M - p * r := by linarith
  have hlog1 : 0 < Real.log (1 + r) := Real.log_pos (by linarith)
  have harg : 1 - p * r / M = (M - p * r) / M := by field_simp
  have hneg : -Real.log (1 - p * r / M) = Real.log (M / (M - p * r)) := by
    rw [harg, Real.log_div hMpr.ne' hM.ne', Real.log_div hM.ne' hMpr.ne']
    ring
  rw [hneg, div_le_iff₀ hlog1] at hy
  have hcast : ((y : ℝ) * 12) * Real.log (1 + r) = Real.log ((1 + r) ^ (y * 12)) := by
    rw [Real.log_pow]
    push_cast
    ring
  rw [hcast] at hy
  have hQpos : (0:ℝ) < (1 + r) ^ (y * 12) := pow_pos (by linarith) _
  have hA : M / (M - p * r) ≤ (1 + r) ^ (y * 12) :=
    (Real.log_le_log_iff (div_pos hM hMpr) hQpos).mp hy
  rw [div_le_iff₀ hMpr] at hA
  apply balance_zero_pos_rate p a mp ex hr.ne' y
  rw [← hrdef, ← hMdef, ← mul_div_assoc, le_div_iff₀ hr]
  nlinarith [hA]

/-- The logarithmic payoff estimate never exceeds the standard 360-month
term when the total payment is at least the annuity payment. -/
lemma months_le_of_pay_le (p r M : ℝ) (hr : 0 < r) (hp : 0 < p)
    (hprM : p * r < M)
    (hQpay : p * (r * (1 + r) ^ (360 : ℕ)) / ((1 + r) ^ (360 : ℕ) - 1) ≤ M) :
    -Real.log (1 - p * r / M) / Real.log (1 + r) ≤ 360 := by
  obtain ⟨Q, hQdef, hq⟩ : ∃ Q : ℝ, (1 + r) ^ (360 : ℕ) = Q ∧ 1 < Q :=
    ⟨_, rfl, one_lt_pow₀ (by linarith) (by norm_num)⟩
  rw [hQdef] at hQpay
  have hM : 0 < M := lt_trans (mul_pos hp hr) hprM
  have hMpr : 0 < M - p * r := by linarith
  have hlog1 : 0 < Real.log (1 + r) := Real.log_pos (by linarith)
  have harg : 1 - p * r / M = (M - p * r) / M := by field_simp
  have hneg : -Real.log (1 - p * r / M) = Real.log (M / (M - p * r)) := by
    rw [harg, Real.log_div hMpr.ne' hM.ne', Real.log_div hM.ne' hMpr.ne']
    ring
  rw [hneg, div_le_iff₀ hlog1]
  have h360 : (360 : ℝ) * Real.log (1 + r) = Real.log Q := by
    rw [← hQdef, Real.log_pow]
    norm_num
  clear hQdef
  rw [h360]
  apply (Real.log_le_log_iff (div_pos hM hMpr) (by linarith)).mpr
  rw [div_le_iff₀ hMpr]
  have h2 : p * (r * Q) ≤ M * (Q - 1) := by
    rw [div_le_iff₀ (by linarith : (0:ℝ) < Q - 1)] at hQpay
    linarith
  nlinarith [h2]

/-- Shape of the monthly payment of the engine when there is a loan. -/
lemma monthlyMortgage_eq (inputs : InvestmentInputs) (hl : 0 < loanAmount inputs) :
    monthlyMortgage inputs =
      calculateMortgagePayment (loanAmount inputs) inputs.mortgageRate 30 := by
  rw [monthlyMortgage, if_pos hl]

/-- The extra annual payment is floored at 0. -/
lemma extraAnnualPayment_nonneg (inputs : InvestmentInputs) :
    0 ≤ extraAnnualPayment inputs := le_max_left _ _

/-- With a loan and a non-negative rate the monthly payment of the engine is
positive. -/
lemma monthlyMortgage_pos (inputs : InvestmentInputs) (hv : ValidInputs inputs)
    (hl : 0 < loanAmount inputs) : 0 < monthlyMortgage inputs := by
  rw [monthlyMortgage_eq inputs hl]
  have ha : 0 ≤ inputs.mortgageRate := hv.2.2.2.2.2.1
  have hr0 : 0 ≤ inputs.mortgageRate / 100 / 12 := by positivity
  rcases eq_or_lt_of_le hr0 with h | h
  · rw [calculateMortgagePayment_zero_rate _ _ h.symm]
    exact div_pos hl (by norm_num)
  · rw [calculateMortgagePayment_pos_rate _ _ h.ne']
    exact annuity_pos _ _ _ hl h (one_lt_pow₀ (by linarith) (by norm_num))

/-- The engine total monthly payment covers the monthly interest on the
loan. -/
lemma engine_interest_covered (inputs : InvestmentInputs) (hv : ValidInputs inputs)
    (hl : 0 < loanAmount inputs) :
    loanAmount inputs * (inputs.mortgageRate / 100 / 12) ≤
      monthlyMortgage inputs + extraAnnualPayment inputs / 12 := by
  have ha : 0 ≤ inputs.mortgageRate := hv.2.2.2.2.2.1
  have hr0 : 0 ≤ inputs.mortgageRate / 100 / 12 := by positivity
  have hex : 0 ≤ extraAnnualPayment inputs := extraAnnualPayment_nonneg inputs
  have hmm := monthlyMortgage_pos inputs hv hl
  rcases eq_or_lt_of_le hr0 with h | h
  · rw [← h, mul_zero]
    linarith
  · have hgt : loanAmount inputs * (inputs.mortgageRate / 100 / 12) <
        monthlyMortgage inputs := by
      rw [monthlyMortgage_eq inputs hl, calculateMortgagePayment_pos_rate _ _ h.ne']
      exact annuity_gt _ _ _ hl h (one_lt_pow₀ (by linarith) (by norm_num))
    linarith

/-- Strict version of the interest-coverage inequality in the positive-rate
case. -/
lemma engine_interest_covered_lt (inputs : InvestmentInputs)
    (hl : 0 < loanAmount inputs)
    (h : 0 < inputs.mortgageRate / 100 / 12) :
    loanAmount inputs * (inputs.mortgageRate / 100 / 12) <
      monthlyMortgage inputs + extraAnnualPayment inputs / 12 := by
  have hex : 0 ≤ extraAnnualPayment inputs := extraAnnualPayment_nonneg inputs
  have hgt : loanAmount inputs * (inputs.mortgageRate / 100 / 12) <
      monthlyMortgage inputs := by
    rw [monthlyMortgage_eq inputs hl, calculateMortgagePayment_pos_rate _ _ h.ne']
    exact annuity_gt _ _ _ hl h (one_lt_pow₀ (by linarith) (by norm_num))
  linarith

/-- Shape of the payoff time of the engine when there is a loan. -/
lemma payoffTime_eq (inputs : InvestmentInputs) (hl : 0 < loanAmount inputs) :
    payoffTime inputs = calculatePayoffTime (loanAmount inputs)
      inputs.mortgageRate (monthlyMortgage inputs) (extraAnnualPayment inputs) := by
  rw [payoffTime, if_pos hl]

/-- With a loan, the projected payoff time is positive. -/
lemma payoffTime_pos (inputs : InvestmentInputs) (hv : ValidInputs inputs)
    (hl : 0 < loanAmount inputs) : 0 < payoffTime inputs := by
  have hex : 0 ≤ extraAnnualPayment inputs := extraAnnualPayment_nonneg inputs
  have hmm := monthlyMortgage_pos inputs hv hl
  rw [payoffTime_eq inputs hl]
  simp only [calculatePayoffTime]
  by_cases hex0 : extraAnnualPayment inputs ≤ 0
  · rw [if_pos hex0]; norm_num
  · rw [if_neg hex0]
    push_neg at hex0
    by_cases h : inputs.mortgageRate / 100 / 12 = 0
    · rw [if_pos h]
      exact div_pos hl (by linarith)
    · rw [if_neg h]
      exact lt_of_lt_of_le (by norm_num) (le_max_left _ _)

/-- With a loan and valid inputs, the projected payoff time never exceeds
the 30-year standard term. -/
lemma payoffTime_le_30 (inputs : InvestmentInputs) (hv : ValidInputs inputs)
    (hl : 0 < loanAmount inputs) : payoffTime inputs ≤ 30 := by
  have hex : 0 ≤ extraAnnualPayment inputs := extraAnnualPayment_nonneg inputs
  have hmm := monthlyMortgage_pos inputs hv hl
  have ha : 0 ≤ inputs.mortgageRate := hv.2.2.2.2.2.1
  rw [payoffTime_eq inputs hl]
  simp only [calculatePayoffTime]
  by_cases hex0 : extraAnnualPayment inputs ≤ 0
  · rw [if_pos hex0]
  · rw [if_neg hex0]
    push_neg at hex0
    by_cases h : inputs.mortgageRate / 100 / 12 = 0
    · rw [if_pos h]
      rw [div_le_iff₀ (by linarith :
        (0:ℝ) < (monthlyMortgage inputs + extraAnnualPayment inputs / 12) * 12)]
      have hpay : monthlyMortgage inputs = loanAmount inputs / 360 := by
        rw [monthlyMortgage_eq inputs hl, calculateMortgagePayment_zero_rate _ _ h]
        norm_num
      have h2 : loanAmount inputs / 360 * 360 = loanAmount inputs :=
        div_mul_cancel₀ _ (by norm_num)
      linarith [hpay, h2, hex0]
    · rw [if_neg h]
      apply max_le (by norm_num)
      rw [div_le_iff₀ (by norm_num : (0:ℝ) < 12)]
      have hr : 0 < inputs.mortgageRate / 100 / 12 :=
        lt_of_le_of_ne (by positivity) (Ne.symm h)
      have hprM := engine_interest_covered_lt inputs hl hr
      have hQpay : loanAmount inputs * ((inputs.mortgageRate / 100 / 12) *
            (1 + inputs.mortgageRate / 100 / 12) ^ (360 : ℕ)) /
            ((1 + inputs.mortgageRate / 100 / 12) ^ (360 : ℕ) - 1) ≤
          monthlyMortgage inputs + extraAnnualPayment inputs / 12 := by
        rw [← calculateMortgagePayment_pos_rate _ _ h, ← monthlyMortgage_eq inputs hl]
        linarith
      have hml := months_le_of_pay_le (loanAmount inputs)
        (inputs.mortgageRate / 100 / 12)
        (monthlyMortgage inputs + extraAnnualPayment inputs / 12) hr hl hprM hQpay
      linarith

/-- Once the whole-year count has reached the projected payoff time, the
engine remaining balance is exactly 0. -/
lemma balance_zero_of_ge_pt (inputs : InvestmentInputs) (hv : ValidInputs inputs)
    (hl : 0 < loanAmount inputs) (T : ℕ)
    (hT : payoffTime inputs ≤ (T : ℝ)) :
    calculateMortgageBalance (loanAmount inputs) inputs.mortgageRate
      (monthlyMortgage inputs) (extraAnnualPayment inputs) T = 0 := by
  have hex : 0 ≤ extraAnnualPayment inputs := extraAnnualPayment_nonneg inputs
  have hmm := monthlyMortgage_pos inputs hv hl
  have ha : 0 ≤ inputs.mortgageRate := hv.2.2.2.2.2.1
  rw [payoffTime_eq inputs hl] at hT
  simp only [calculatePayoffTime] at hT
  by_cases hex0 : extraAnnualPayment inputs ≤ 0
  · -- no extra payment: the payoff estimate is the full 30-year term
    rw [if_pos hex0] at hT
    have h30T : 30 ≤ T := by exact_mod_cast hT
    have hMcov := engine_interest_covered inputs hv hl
    have hanti := calculateMortgageBalance_antitone (loanAmount inputs)
      inputs.mortgageRate (monthlyMortgage inputs) (extraAnnualPayment inputs)
      ha (by linarith) hMcov h30T
    have h30 : calculateMortgageBalance (loanAmount inputs) inputs.mortgageRate
        (monthlyMortgage inputs) (extraAnnualPayment inputs) 30 = 0 := by
      by_cases h : inputs.mortgageRate / 100 / 12 = 0
      · apply balance_zero_zero_rate _ _ _ _ h
        have hpay : monthlyMortgage inputs = loanAmount inputs / 360 := by
          rw [monthlyMortgage_eq inputs hl, calculateMortgagePayment_zero_rate _ _ h]
          norm_num
        have h2 : loanAmount inputs / 360 * 360 = loanAmount inputs :=
          div_mul_cancel₀ _ (by norm_num)
        rw [show ((30 * 12 : ℕ) : ℝ) = 360 by norm_num]
        linarith [hpay, h2, hex]
      · have hr : 0 < inputs.mortgageRate / 100 / 12 :=
          lt_of_le_of_ne (by positivity) (Ne.symm h)
        obtain ⟨Q, hQdef, hq⟩ : ∃ Q : ℝ,
            (1 + inputs.mortgageRate / 100 / 12) ^ (360 : ℕ) = Q ∧ 1 < Q :=
          ⟨_, rfl, one_lt_pow₀ (by linarith) (by norm_num)⟩
        apply balance_zero_pos_rate _ _ _ _ h
        rw [show (30 * 12 : ℕ) = 360 by norm_num, hQdef]
        have hpay : monthlyMortgage inputs =
            loanAmount inputs * ((inputs.mortgageRate / 100 / 12) * Q) / (Q - 1) := by
          rw [monthlyMortgage_eq inputs hl, calculateMortgagePayment_pos_rate _ _ h,
            hQdef]
        clear hQdef
        rw [hpay]
        have hid := annuity_identity (loanAmount inputs)
          (inputs.mortgageRate / 100 / 12) Q hr.ne' (by linarith)
        have hfrac : 0 ≤ (Q - 1) / (inputs.mortgageRate / 100 / 12) :=
          div_nonneg (by linarith) (le_of_lt hr)
        calc loanAmount inputs * Q
            = loanAmount inputs * ((inputs.mortgageRate / 100 / 12) * Q) / (Q - 1) *
              ((Q - 1) / (inputs.mortgageRate / 100 / 12)) := hid.symm
          _ ≤ (loanAmount inputs * ((inputs.mortgageRate / 100 / 12) * Q) / (Q - 1) +
              extraAnnualPayment inputs / 12) *
              ((Q - 1) / (inputs.mortgageRate / 100 / 12)) := by
                have hnn : 0 ≤ extraAnnualPayment inputs / 12 *
                    ((Q - 1) / (inputs.mortgageRate / 100 / 12)) :=
                  mul_nonneg (by linarith) hfrac
                nlinarith [hnn]
    have hnn := calculateMortgageBalance_nonneg (loanAmount inputs)
      inputs.mortgageRate (monthlyMortgage inputs) (extraAnnualPayment inputs) T
    rw [h30] at hanti
    linarith
  · rw [if_neg hex0] at hT
    push_neg at hex0
    by_cases h : inputs.mortgageRate / 100 / 12 = 0
    · rw [if_pos h] at hT
      apply balance_zero_zero_rate _ _ _ _ h
      have hM : 0 < monthlyMortgage inputs + extraAnnualPayment inputs / 12 := by
        linarith
      rw [div_le_iff₀ (by linarith :
        (0:ℝ) < (monthlyMortgage inputs + extraAnnualPayment inputs / 12) * 12)] at hT
      push_cast
      nlinarith [hT]
    · rw [if_neg h] at hT
      have hr : 0 < inputs.mortgageRate / 100 / 12 :=
        lt_of_le_of_ne (by positivity) (Ne.symm h)
      have hprM := engine_interest_covered_lt inputs hl hr
      apply balance_zero_of_months _ _ _ _ hr hl hprM
      have hm12 := le_trans (le_max_right _ _) hT
      rw [div_le_iff₀ (by norm_num : (0:ℝ) < 12)] at hm12
      linarith

/-- By the ceiling of the projected payoff time the engine remaining
balance has reached exactly 0. -/
lemma balance_zero_at_ceilPt (inputs : InvestmentInputs) (hv : ValidInputs inputs)
    (hl : 0 < loanAmount inputs) :
    calculateMortgageBalance (loanAmount inputs) inputs.mortgageRate
      (monthlyMortgage inputs) (extraAnnualPayment inputs)
      (⌈payoffTime inputs⌉.toNat) = 0 := by
  have hpt := payoffTime_pos inputs hv hl
  have hceil : 0 ≤ ⌈payoffTime inputs⌉ := le_of_lt (Int.ceil_pos.mpr hpt)
  apply balance_zero_of_ge_pt inputs hv hl
  calc payoffTime inputs ≤ ((⌈payoffTime inputs⌉ : ℤ) : ℝ) := Int.le_ceil _
    _ = ((⌈payoffTime inputs⌉.toNat : ℕ) : ℝ) := by
        exact_mod_cast (Int.toNat_of_nonneg hceil).symm

/-- Summary of the payoff structure of a valid loan: a year index by which
the balance is exactly 0, located no later than year 30 and at least two
years before the iteration bound. -/
lemma engine_balance_facts (inputs : InvestmentInputs) (hv : ValidInputs inputs)
    (hl : 0 < loanAmount inputs) :
    ∃ T : ℕ, 1 ≤ T ∧ T ≤ 30 ∧ T + 2 ≤ maxYears inputs ∧
      calculateMortgageBalance (loanAmount inputs) inputs.mortgageRate
        (monthlyMortgage inputs) (extraAnnualPayment inputs) T = 0 := by
  refine ⟨⌈payoffTime inputs⌉.toNat, ?_, ?_, ?_, balance_zero_at_ceilPt inputs hv hl⟩
  · have h1 := Int.ceil_pos.mpr (payoffTime_pos inputs hv hl)
    omega
  · have h30 : ⌈payoffTime inputs⌉ ≤ 30 :=
      Int.ceil_le.mpr (by exact_mod_cast payoffTime_le_30 inputs hv hl)
    omega
  · have hle : (⌈payoffTime inputs⌉ + 2 : ℤ) ≤ max 5 (⌈payoffTime inputs⌉ + 2) :=
      le_max_right _ _
    have h1 := Int.ceil_pos.mpr (payoffTime_pos inputs hv hl)
    unfold maxYears
    omega

/-- Field values of the emitted snapshots of the full engine, indexed by
position: years count up from 1, the balance and the property value are the
closed-form functions of the year, and the stock value is the iterated
stock-path update of the initial net worth. -/
lemma calculateProjections_get_spec (inputs : InvestmentInputs) (i : ℕ)
    (hi : i < (calculateProjections inputs).length) :
    ((calculateProjections inputs).get ⟨i, hi⟩).year = 1 + i ∧
    ((calculateProjections inputs).get ⟨i, hi⟩).mortgageBalance =
      calculateMortgageBalance (loanAmount inputs) inputs.mortgageRate
        (monthlyMortgage inputs) (extraAnnualPayment inputs) (1 + i) ∧
    ((calculateProjections inputs).get ⟨i, hi⟩).propertyValue =
      inputs.houseCost * (1 + inputs.houseGrowthRate / 100) ^ (1 + i) ∧
    ((calculateProjections inputs).get ⟨i, hi⟩).stockValue =
      (stockStep inputs)^[i + 1] inputs.initialNetWorth :=
  projLoop_get?_spec inputs (maxYears inputs) 1 inputs.initialNetWorth 0 0 i
    ((calculateProjections inputs).get ⟨i, hi⟩) (List.get?_eq_get hi)

/-- When the deposit covers the house price the loop terminates right after
its first year: the emitted sequence is a single snapshot with a zero
balance, and the projected payoff time is 0. -/
lemma noLoan_projections (inputs : InvestmentInputs) (hv : ValidInputs inputs)
    (h : inputs.houseCost ≤ inputs.initialNetWorth) :
    payoffTime inputs = 0 ∧
    calculateProjections inputs =
      [snapshotAt inputs 1 inputs.initialNetWorth 0 0] ∧
    (snapshotAt inputs 1 inputs.initialNetWorth 0 0).mortgageBalance = 0 := by
  have ha : 0 ≤ inputs.mortgageRate := hv.2.2.2.2.2.1
  have hl : ¬ 0 < loanAmount inputs := by
    rw [loanAmount]
    exact not_lt.mpr (by linarith)
  have hpt : payoffTime inputs = 0 := by rw [payoffTime, if_neg hl]
  have hmm0 : monthlyMortgage inputs = 0 := by rw [monthlyMortgage, if_neg hl]
  have hex : 0 ≤ extraAnnualPayment inputs := extraAnnualPayment_nonneg inputs
  have hmb1 : calculateMortgageBalance (loanAmount inputs) inputs.mortgageRate
      (monthlyMortgage inputs) (extraAnnualPayment inputs) 1 = 0 := by
    apply balance_zero_of_nonpos
    · rw [loanAmount]; linarith
    · exact ha
    · rw [hmm0]; linarith
  have hfuel : maxYears inputs = 5 := by
    rw [maxYears, hpt]
    norm_num
    rfl
  have hsnap : (snapshotAt inputs 1 inputs.initialNetWorth 0 0).mortgageBalance =
      calculateMortgageBalance (loanAmount inputs) inputs.mortgageRate
        (monthlyMortgage inputs) (extraAnnualPayment inputs) 1 := rfl
  refine ⟨hpt, ?_, by rw [hsnap, hmb1]⟩
  rw [calculateProjections, hfuel, show (5:ℕ) = 4 + 1 from rfl, projLoop_succ]
  rw [if_pos ⟨le_of_eq hmb1, by rw [hpt]; norm_num⟩]

end Calculations

/-- Positivity of the closed-form balance of the engine at the inputs of the
duplication counterexample: a 12% loan of 1000 with no payments at all
still has a positive formula value after 30 years. -/
lemma engineBalance_1000_pos :
    0 < Calculations.calculateMortgageBalance 1000 12 0 0 30 := by
  have h0 : ¬ ((12:ℝ) / 100 / 12 = 0) := by norm_num
  simp only [Calculations.calculateMortgageBalance]
  rw [if_neg h0]
  have hQ : (0:ℝ) < (1 + 12 / 100 / 12) ^ (30 * 12 : ℕ) := pow_pos (by norm_num) _
  have h2 : ((0:ℝ) + 0 / 12) = 0 := by norm_num
  rw [h2, zero_mul, sub_zero]
  exact lt_of_lt_of_le (by linarith) (le_max_right 0 _)

/-- C9: with mortgageRate = 0 the payment function takes the explicit
zero-rate branch and returns the principal divided by the number of monthly
payments, with no division by zero (the engine is a total function on the
real-valued model, so no exception or NaN arises on zero-valued fields). -/
theorem c9_zero_rate_payment (principal : ℝ) (termYears : ℕ) :
    Calculations.calculateMortgagePayment principal 0 termYears =
      principal / ((termYears : ℝ) * 12) := by
  apply Calculations.calculateMortgagePayment_zero_rate
  norm_num

/-- C4 counterexample: the calculateMortgageBalance of the engine does not force
the balance to 0 at yearsElapsed = 30 — with principal 1000, rate 12% and
zero payments it returns the positive compounded principal. -/
theorem c4_counterexample :
    Calculations.calculateMortgageBalance 1000 12 0 0 30 ≠ 0 :=
  engineBalance_1000_pos.ne'

/-- C4 amended: the calculateMortgageBalance of the engine is never negative
(floored at 0) for all arguments; the forcing to exactly 0 at
yearsElapsed ≥ 30 exists only in the ComparisonTable duplicate. -/
theorem c4_nonneg_and_table_cap (p a mp ex : ℝ) (y : ℕ) :
    0 ≤ Calculations.calculateMortgageBalance p a mp ex y ∧
    (30 ≤ y → ComparisonTable.calculateMortgageBalance p a mp ex y = 0) := by
  refine ⟨Calculations.calculateMortgageBalance_nonneg p a mp ex y, fun hy => ?_⟩
  simp only [ComparisonTable.calculateMortgageBalance]
  rw [if_pos hy]

/-- C4 witness: the amended statement evaluated at concrete arguments. -/
theorem c4_witness :
    0 ≤ Calculations.calculateMortgageBalance 0 0 0 0 30 ∧
    ComparisonTable.calculateMortgageBalance 0 0 0 0 30 = 0 :=
  ⟨(c4_nonneg_and_table_cap 0 0 0 0 30).1,
    (c4_nonneg_and_table_cap 0 0 0 0 30).2 (by norm_num)⟩

/-- C10 counterexample: the calculateMortgageBalance of the engine and the
ComparisonTable duplicate disagree at yearsPaid = 30 (the duplicate clamps
to 0, the engine returns the positive formula value). -/
theorem c10_counterexample :
    Calculations.calculateMortgageBalance 1000 12 0 0 30 ≠
      ComparisonTable.calculateMortgageBalance 1000 12 0 0 30 := by
  have htable : ComparisonTable.calculateMortgageBalance 1000 12 0 0 30 = 0 := by
    simp only [ComparisonTable.calculateMortgageBalance]
    rw [if_pos (by norm_num : (30:ℕ) ≤ 30)]
  rw [htable]
  exact engineBalance_1000_pos.ne'

/-- C10 amended: the two copies of calculateMortgageBalance agree for every
argument tuple with yearsPaid < 30; they can differ only at or beyond the
30-year cap that exists solely in the ComparisonTable copy. -/
theorem c10_agree_below_30 (p a mp ex : ℝ) (y : ℕ) (hy : y < 30) :
    Calculations.calculateMortgageBalance p a mp ex y =
      ComparisonTable.calculateMortgageBalance p a mp ex y := by
  simp only [Calculations.calculateMortgageBalance,
    ComparisonTable.calculateMortgageBalance]
  rw [if_neg (by omega : ¬ (30:ℕ) ≤ y)]

/-- C10 witness: agreement of the two copies at a concrete year below 30. -/
theorem c10_witness :
    Calculations.calculateMortgageBalance 0 0 0 0 5 =
      ComparisonTable.calculateMortgageBalance 0 0 0 0 5 :=
  c10_agree_below_30 0 0 0 0 5 (by norm_num)

/-- C3: at a non-amortizing input (total monthly payment 1100 below the
interest-only cost 10000) the payoff-time function takes the logarithm of a
negative number and returns the non-finite JS value NaN (modelled as none),
rather than surfacing an explicit non-amortizing condition: the claim
required behaviour is absent from the code. -/
theorem c3_nan_at_non_amortizing :
    Calculations.calculatePayoffTimeJS 1000000 12 1000 1200 = none := by
  simp only [Calculations.calculatePayoffTimeJS, Calculations.jsLog]
  rw [if_neg (by norm_num : ¬ ((1200:ℝ) ≤ 0)),
    if_neg (by norm_num : ¬ ((12:ℝ) / 100 / 12 = 0)),
    if_neg (by norm_num :
      ¬ ((0:ℝ) < 1 - 1000000 * (12 / 100 / 12) / (1000 + 1200 / 12)))]
  rfl

/-- C5: the engine performs no input validation — at a parameter set whose
mortgage rate is -200% (below the -100% plausibility bound) the simulation
still runs and returns a non-empty projection sequence; no typed
InvalidParameter result exists in the code. -/
theorem c5_runs_on_invalid_rate :
    invalidRateInputs.mortgageRate < -100 ∧
      1 ≤ (Calculations.calculateProjections invalidRateInputs).length :=
  ⟨by norm_num [invalidRateInputs],
    Calculations.calculateProjections_length_pos invalidRateInputs⟩

/-- C8: for every parameter set and every emitted snapshot, the property
value is the house cost compounded from the original purchase price to the
snapshot year, independent of prior-year compounding. -/
theorem c8_property_value (inputs : InvestmentInputs) (i : ℕ)
    (hi : i < (Calculations.calculateProjections inputs).length) :
    ((Calculations.calculateProjections inputs).get ⟨i, hi⟩).propertyValue =
      inputs.houseCost * (1 + inputs.houseGrowthRate / 100) ^ (i + 1) := by
  rw [(Calculations.calculateProjections_get_spec inputs i hi).2.2.1,
    Nat.add_comm 1 i]

/-- C8 witness: the property-value law evaluated at a concrete input and
index. -/
theorem c8_witness :
    ∃ h : 0 < (Calculations.calculateProjections loan360).length,
      ((Calculations.calculateProjections loan360).get ⟨0, h⟩).propertyValue =
        loan360.houseCost * (1 + loan360.houseGrowthRate / 100) ^ (0 + 1) :=
  ⟨Calculations.calculateProjections_length_pos loan360,
    c8_property_value loan360 0 (Calculations.calculateProjections_length_pos loan360)⟩

/-- C1 counterexample: at Scenario C (deposit equal to the house price) the
returned sequence has exactly one snapshot, not the five the claim
requires — the early-termination check stops the loop after year 1. -/
theorem c1_counterexample :
    (Calculations.calculateProjections scenarioC).length = 1 ∧
    ¬ 5 ≤ (Calculations.calculateProjections scenarioC).length := by
  obtain ⟨-, hlist, -⟩ := Calculations.noLoan_projections scenarioC
    (by norm_num [ValidInputs, scenarioC]) (by norm_num [scenarioC])
  rw [hlist]
  simp

/-- C1 amended: the loop bound is max(5, ceil(payoffTime) + 2), but the
early-termination check cuts the output short: for valid inputs with
initialNetWorth ≥ houseCost the payoff time is 0, the single emitted
snapshot has mortgageBalance 0, and the sequence has length exactly 1
rather than covering a 5-year horizon. -/
theorem c1_no_loan_single_snapshot (inputs : InvestmentInputs)
    (hv : ValidInputs inputs) (h : inputs.houseCost ≤ inputs.initialNetWorth) :
    Calculations.payoffTime inputs = 0 ∧
    (Calculations.calculateProjections inputs).length = 1 ∧
    ∀ pr ∈ Calculations.calculateProjections inputs, pr.mortgageBalance = 0 := by
  obtain ⟨hpt, hlist, hmb⟩ := Calculations.noLoan_projections inputs hv h
  refine ⟨hpt, by rw [hlist]; rfl, ?_⟩
  intro pr hpr
  rw [hlist, List.mem_singleton] at hpr
  rw [hpr]
  exact hmb

/-- C1 witness: the amended statement evaluated at Scenario C. -/
theorem c1_witness :
    ValidInputs scenarioC ∧ scenarioC.houseCost ≤ scenarioC.initialNetWorth ∧
    (Calculations.payoffTime scenarioC = 0 ∧
     (Calculations.calculateProjections scenarioC).length = 1 ∧
     ∀ pr ∈ Calculations.calculateProjections scenarioC, pr.mortgageBalance = 0) :=
  ⟨by norm_num [ValidInputs, scenarioC], by norm_num [scenarioC],
    c1_no_loan_single_snapshot scenarioC (by norm_num [ValidInputs, scenarioC])
      (by norm_num [scenarioC])⟩

/-- C6 counterexample: an unaffordable parameter set without a loan — the
claim as stated fails, because the engine stops after a single snapshot
(year 1) instead of extending the projection through year 30. -/
theorem c6_counterexample :
    unaffordableNoLoan.yearlyInvestment <
      Calculations.annualMortgageCosts unaffordableNoLoan ∧
    (Calculations.calculateProjections unaffordableNoLoan).length = 1 ∧
    ∀ pr ∈ Calculations.calculateProjections unaffordableNoLoan, pr.year = 1 := by
  obtain ⟨-, hlist, -⟩ := Calculations.noLoan_projections unaffordableNoLoan
    (by norm_num [ValidInputs, unaffordableNoLoan]) (by norm_num [unaffordableNoLoan])
  have hnl : ¬ 0 < Calculations.loanAmount unaffordableNoLoan := by
    norm_num [Calculations.loanAmount, unaffordableNoLoan]
  refine ⟨?_, by rw [hlist]; rfl, ?_⟩
  · rw [Calculations.annualMortgageCosts, Calculations.monthlyMortgage, if_neg hnl]
    norm_num [unaffordableNoLoan]
  · intro pr hpr
    rw [hlist, List.mem_singleton] at hpr
    rw [hpr]
    rfl

/-- C6 amended: for an unaffordable scenario that does carry a loan
(loanAmount > 0 and yearlyInvestment < annualHousingCost) the engine does
not fail: the extra annual payment is floored at exactly 0, the payoff
estimate falls back to the 30-year term, and the returned sequence extends
through year 30 (at least 31 snapshots). -/
theorem c6_unaffordable_with_loan (inputs : InvestmentInputs)
    (hl : 0 < Calculations.loanAmount inputs)
    (hu : inputs.yearlyInvestment < Calculations.annualMortgageCosts inputs) :
    Calculations.extraAnnualPayment inputs = 0 ∧
    Calculations.payoffTime inputs = 30 ∧
    31 ≤ (Calculations.calculateProjections inputs).length := by
  have hex : Calculations.extraAnnualPayment inputs = 0 := by
    rw [Calculations.extraAnnualPayment]
    exact max_eq_left (by linarith)
  have hpt : Calculations.payoffTime inputs = 30 := by
    rw [Calculations.payoffTime_eq inputs hl]
    simp only [Calculations.calculatePayoffTime]
    rw [hex, if_pos le_rfl]
  have hfuel : Calculations.maxYears inputs = 32 := by
    rw [Calculations.maxYears, hpt]
    norm_num
    rfl
  have hnb : ∀ j, j < 30 →
      ¬(Calculations.calculateMortgageBalance (Calculations.loanAmount inputs)
          inputs.mortgageRate (Calculations.monthlyMortgage inputs)
          (Calculations.extraAnnualPayment inputs) (1 + j) ≤ 0 ∧
        ((1 + j : ℕ) : ℝ) > Calculations.payoffTime inputs) := by
    intro j hj hc
    rw [hpt] at hc
    have hle : ((1 + j : ℕ) : ℝ) ≤ 30 := by
      exact_mod_cast (by omega : (1 + j : ℕ) ≤ 30)
    have := hc.2
    linarith
  have h31 := Calculations.projLoop_length_ge inputs 30 (Calculations.maxYears inputs)
    1 inputs.initialNetWorth 0 0 (by rw [hfuel]; norm_num) hnb
  exact ⟨hex, hpt, h31⟩

/-- C6 witness: the amended statement evaluated at a concrete zero-rate
loan that the stated yearly budget cannot cover. -/
theorem c6_witness :
    0 < Calculations.loanAmount loan360 ∧
    loan360.yearlyInvestment < Calculations.annualMortgageCosts loan360 ∧
    (Calculations.extraAnnualPayment loan360 = 0 ∧
     Calculations.payoffTime loan360 = 30 ∧
     31 ≤ (Calculations.calculateProjections loan360).length) := by
  have h1 : 0 < Calculations.loanAmount loan360 := by
    norm_num [Calculations.loanAmount, loan360]
  have h2 : loan360.yearlyInvestment < Calculations.annualMortgageCosts loan360 := by
    rw [Calculations.annualMortgageCosts, Calculations.monthlyMortgage, if_pos h1,
      Calculations.calculateMortgagePayment_zero_rate _ _ (by norm_num [loan360])]
    norm_num [Calculations.loanAmount, loan360]
  exact ⟨h1, h2, c6_unaffordable_with_loan loan360 h1 h2⟩

/-- C7: the stock path of every projection follows the end-of-year update
(growth on the prior balance, then the possibly negative net contribution
with no floor), seeded with the initial net worth; years start at 1 and
increase by 1 per snapshot; in Scenario A the stock value of the first snapshot
is exactly 118800. -/
theorem c7_stock_path (inputs : InvestmentInputs) :
    (∀ (i : ℕ) (hi : i < (Calculations.calculateProjections inputs).length),
      ((Calculations.calculateProjections inputs).get ⟨i, hi⟩).year = i + 1) ∧
    (∀ h0 : 0 < (Calculations.calculateProjections inputs).length,
      ((Calculations.calculateProjections inputs).get ⟨0, h0⟩).stockValue =
        inputs.initialNetWorth * (1 + inputs.stockAnnualReturn / 100) +
          (inputs.yearlyInvestment - inputs.weeklyRent * 52)) ∧
    (∀ (i : ℕ) (hi : i + 1 < (Calculations.calculateProjections inputs).length),
      ((Calculations.calculateProjections inputs).get ⟨i + 1, hi⟩).stockValue =
        ((Calculations.calculateProjections inputs).get
            ⟨i, Nat.lt_of_succ_lt hi⟩).stockValue *
          (1 + inputs.stockAnnualReturn / 100) +
          (inputs.yearlyInvestment - inputs.weeklyRent * 52)) ∧
    0 < (Calculations.calculateProjections scenarioA).length ∧
    (∀ h : 0 < (Calculations.calculateProjections scenarioA).length,
      ((Calculations.calculateProjections scenarioA).get ⟨0, h⟩).stockValue =
        118800) := by
  refine ⟨?_, ?_, ?_, Calculations.calculateProjections_length_pos scenarioA, ?_⟩
  · intro i hi
    rw [(Calculations.calculateProjections_get_spec inputs i hi).1]
    omega
  · intro h0
    rw [(Calculations.calculateProjections_get_spec inputs 0 h0).2.2.2]
    simp [Calculations.stockStep]
  · intro i hi
    rw [(Calculations.calculateProjections_get_spec inputs (i + 1) hi).2.2.2,
      (Calculations.calculateProjections_get_spec inputs i
        (Nat.lt_of_succ_lt hi)).2.2.2,
      Function.iterate_succ_apply']
    rfl
  · intro h
    rw [(Calculations.calculateProjections_get_spec scenarioA 0 h).2.2.2]
    simp [Calculations.stockStep, scenarioA]
    norm_num

/-- C7 witness: the year law and the first-year stock value instantiated at
Scenario A. -/
theorem c7_witness :
    ∃ h : 0 < (Calculations.calculateProjections scenarioA).length,
      ((Calculations.calculateProjections scenarioA).get ⟨0, h⟩).year = 0 + 1 ∧
      ((Calculations.calculateProjections scenarioA).get ⟨0, h⟩).stockValue =
        118800 :=
  ⟨Calculations.calculateProjections_length_pos scenarioA,
    (c7_stock_path scenarioA).1 0 (Calculations.calculateProjections_length_pos scenarioA),
    (c7_stock_path scenarioA).2.2.2.2 (Calculations.calculateProjections_length_pos scenarioA)⟩

/-- C2: for valid parameters with a positive loan, the emitted mortgage
balances are monotonically non-increasing, never negative, reach exactly 0
at an emitted year no later than 30, and stay 0 afterwards. -/
theorem c2_mortgage_balance (inputs : InvestmentInputs) (hv : ValidInputs inputs)
    (hl : 0 < Calculations.loanAmount inputs) :
    (∀ (i j : ℕ) (hi : i < (Calculations.calculateProjections inputs).length)
      (hj : j < (Calculations.calculateProjections inputs).length), i ≤ j →
      ((Calculations.calculateProjections inputs).get ⟨j, hj⟩).mortgageBalance ≤
        ((Calculations.calculateProjections inputs).get ⟨i, hi⟩).mortgageBalance) ∧
    (∀ (i : ℕ) (hi : i < (Calculations.calculateProjections inputs).length),
      0 ≤ ((Calculations.calculateProjections inputs).get ⟨i, hi⟩).mortgageBalance) ∧
    (∃ (i : ℕ) (hi : i < (Calculations.calculateProjections inputs).length),
      ((Calculations.calculateProjections inputs).get ⟨i, hi⟩).year ≤ 30 ∧
      ((Calculations.calculateProjections inputs).get ⟨i, hi⟩).mortgageBalance = 0) ∧
    (∀ (i j : ℕ) (hi : i < (Calculations.calculateProjections inputs).length)
      (hj : j < (Calculations.calculateProjections inputs).length), i ≤ j →
      ((Calculations.calculateProjections inputs).get ⟨i, hi⟩).mortgageBalance = 0 →
      ((Calculations.calculateProjections inputs).get ⟨j, hj⟩).mortgageBalance = 0) := by
  classical
  have ha : 0 ≤ inputs.mortgageRate := hv.2.2.2.2.2.1
  have hex := Calculations.extraAnnualPayment_nonneg inputs
  have hmm := Calculations.monthlyMortgage_pos inputs hv hl
  have hMcov := Calculations.engine_interest_covered inputs hv hl
  have hmono : ∀ (i j : ℕ)
      (hi : i < (Calculations.calculateProjections inputs).length)
      (hj : j < (Calculations.calculateProjections inputs).length), i ≤ j →
      ((Calculations.calculateProjections inputs).get ⟨j, hj⟩).mortgageBalance ≤
        ((Calculations.calculateProjections inputs).get ⟨i, hi⟩).mortgageBalance := by
    intro i j hi hj hij
    rw [(Calculations.calculateProjections_get_spec inputs i hi).2.1,
      (Calculations.calculateProjections_get_spec inputs j hj).2.1]
    exact Calculations.calculateMortgageBalance_antitone _ _ _ _ ha
      (by linarith) hMcov (by omega)
  have hnn : ∀ (i : ℕ)
      (hi : i < (Calculations.calculateProjections inputs).length),
      0 ≤ ((Calculations.calculateProjections inputs).get ⟨i, hi⟩).mortgageBalance := by
    intro i hi
    rw [(Calculations.calculateProjections_get_spec inputs i hi).2.1]
    exact Calculations.calculateMortgageBalance_nonneg _ _ _ _ _
  refine ⟨hmono, hnn, ?_, ?_⟩
  · obtain ⟨T, hT1, hT30, hTmax, hTzero⟩ :=
      Calculations.engine_balance_facts inputs hv hl
    have hEx : ∃ n : ℕ, Calculations.calculateMortgageBalance
        (Calculations.loanAmount inputs) inputs.mortgageRate
        (Calculations.monthlyMortgage inputs)
        (Calculations.extraAnnualPayment inputs) (1 + n) = 0 :=
      ⟨T - 1, by rw [show 1 + (T - 1) = T by omega]; exact hTzero⟩
    have hzero := Nat.find_spec hEx
    have hn0T : Nat.find hEx ≤ T - 1 :=
      Nat.find_min' hEx (by rw [show 1 + (T - 1) = T by omega]; exact hTzero)
    have hlen : Nat.find hEx + 1 ≤ (Calculations.calculateProjections inputs).length := by
      rw [Calculations.calculateProjections]
      apply Calculations.projLoop_length_ge inputs (Nat.find hEx)
        (Calculations.maxYears inputs) 1
      · omega
      · intro j hj hc
        have h0 := Calculations.calculateMortgageBalance_nonneg
          (Calculations.loanAmount inputs) inputs.mortgageRate
          (Calculations.monthlyMortgage inputs)
          (Calculations.extraAnnualPayment inputs) (1 + j)
        exact Nat.find_min hEx hj (le_antisymm hc.1 h0)
    have hi0 : Nat.find hEx < (Calculations.calculateProjections inputs).length := by
      omega
    refine ⟨Nat.find hEx, hi0, ?_, ?_⟩
    · rw [(Calculations.calculateProjections_get_spec inputs (Nat.find hEx) hi0).1]
      omega
    · rw [(Calculations.calculateProjections_get_spec inputs (Nat.find hEx) hi0).2.1]
      exact hzero
  · intro i j hi hj hij h0
    have h1 := hmono i j hi hj hij
    have h2 := hnn j hj
    rw [h0] at h1
    linarith

/-- C2 witness: the balance invariants instantiated at a concrete valid
zero-rate loan. -/
theorem c2_witness :
    ValidInputs loan360 ∧ 0 < Calculations.loanAmount loan360 ∧
    ((∀ (i j : ℕ) (hi : i < (Calculations.calculateProjections loan360).length)
      (hj : j < (Calculations.calculateProjections loan360).length), i ≤ j →
      ((Calculations.calculateProjections loan360).get ⟨j, hj⟩).mortgageBalance ≤
        ((Calculations.calculateProjections loan360).get ⟨i, hi⟩).mortgageBalance) ∧
    (∀ (i : ℕ) (hi : i < (Calculations.calculateProjections loan360).length),
      0 ≤ ((Calculations.calculateProjections loan360).get ⟨i, hi⟩).mortgageBalance) ∧
    (∃ (i : ℕ) (hi : i < (Calculations.calculateProjections loan360).length),
      ((Calculations.calculateProjections loan360).get ⟨i, hi⟩).year ≤ 30 ∧
      ((Calculations.calculateProjections loan360).get ⟨i, hi⟩).mortgageBalance = 0) ∧
    (∀ (i j : ℕ) (hi : i < (Calculations.calculateProjections loan360).length)
      (hj : j < (Calculations.calculateProjections loan360).length), i ≤ j →
      ((Calculations.calculateProjections loan360).get ⟨i, hi⟩).mortgageBalance = 0 →
      ((Calculations.calculateProjections loan360).get ⟨j, hj⟩).mortgageBalance = 0)) :=
  ⟨by norm_num [ValidInputs, loan360], by norm_num [Calculations.loanAmount, loan360],
    c2_mortgage_balance loan360 (by norm_num [ValidInputs, loan360])
      (by norm_num [Calculations.loanAmount, loan360])⟩
